import Mathlib

/-!
# Verification of the cert-webhook synchronization engine

Shallow embedding of `src/main.rs` (the certificate-sync bridge): request
validation, bounded retry with exponential backoff, secret fetching and
base64/UTF-8 decoding, the Linode NodeBalancer update call, and the
orchestrating handler `update_nodebalancer_cert`.

Modelling conventions:
- Rust `String` values carrying byte data (PEM text) are modelled as their
  UTF-8 byte lists (`List Nat`), so `String::from_utf8` is a validation that
  returns the same bytes.
- Fallible Rust code returning `Result<T, Box<dyn Error>>` is modelled as
  `Except String T`, with the rendered error message as the error value.
- The external world (Kubernetes secret store, Linode API) is an explicit
  environment of attempt-indexed response functions; network calls issued by
  the code are recorded as an event trace.
-/

namespace CertWebhook

/-- Constant `MAX_RETRIES` from `src/main.rs`. -/
def MAX_RETRIES : Nat := 3

/-- Constant `RETRY_DELAY_MS` from `src/main.rs`. -/
def RETRY_DELAY_MS : Nat := 500

/-- Struct `HookRequest` from `src/main.rs`. -/
structure HookRequest where
  «namespace» : String
  secret_name : String

/-- Struct `ApiResponse` from `src/main.rs`. -/
structure ApiResponse where
  status : String
  message : Option String

/-- An HTTP response produced by a handler: status code plus JSON body. -/
structure HttpResult where
  code : Nat
  body : ApiResponse

/-- Rust `char::is_alphanumeric` (Unicode `Alphabetic` or `Nd`/`Nl`/`No`),
tabulated exactly for code points up to U+00FF (Basic Latin and Latin-1
Supplement, the range every theorem and witness below stays inside); code
points above U+00FF are not modelled and map to `false`. -/
def is_alphanumeric (c : Char) : Bool :=
  decide ((48 ≤ c.toNat ∧ c.toNat ≤ 57) ∨ (65 ≤ c.toNat ∧ c.toNat ≤ 90) ∨
    (97 ≤ c.toNat ∧ c.toNat ≤ 122) ∨
    c.toNat = 170 ∨ c.toNat = 178 ∨ c.toNat = 179 ∨ c.toNat = 181 ∨
    c.toNat = 185 ∨ c.toNat = 186 ∨
    (188 ≤ c.toNat ∧ c.toNat ≤ 190) ∨ (192 ≤ c.toNat ∧ c.toNat ≤ 214) ∨
    (216 ≤ c.toNat ∧ c.toNat ≤ 246) ∨ (248 ≤ c.toNat ∧ c.toNat ≤ 255))

/-- Function `validate_hook_request` from `src/main.rs` (lines 119-134). -/
def validate_hook_request (req : HookRequest) : Except String Unit :=
  if req.«namespace» = "" then .error "namespace cannot be empty"
  else if req.secret_name = "" then .error "secret_name cannot be empty"
  else if !(req.«namespace».toList.all fun c => is_alphanumeric c || c == '-') then
    .error "namespace contains invalid characters"
  else if !(req.secret_name.toList.all fun c => is_alphanumeric c || c == '-' || c == '.') then
    .error "secret_name contains invalid characters"
  else .ok ()

/-- Follows the spec's words, not the code: the allowed namespace alphabet
`[A-Za-z0-9-]` of spec section 4.1, for comparison with the code's validator. -/
def specNamespaceChar (c : Char) : Bool :=
  decide (('A' ≤ c ∧ c ≤ 'Z') ∨ ('a' ≤ c ∧ c ≤ 'z') ∨ ('0' ≤ c ∧ c ≤ '9') ∨ c = '-')

/-- The error value produced by `retry_operation`: either an error returned by
the operation itself, or the `"Unknown error during retry"` fallback built by
`last_error.unwrap_or_else` in `src/main.rs` line 226-228. -/
inductive RetryError (E : Type) where
  | fromOp (e : E)
  | unknown

/-- The observable outcome of one run of the retry loop: the returned value,
how many times the operation was invoked, and the backoff delays slept (in
milliseconds, in order). -/
structure RetryResult (E T : Type) where
  result : Except (RetryError E) T
  invocations : Nat
  delays : List Nat

/-- The body of the `for attempt in 1..=MAX_RETRIES` loop of `retry_operation`
(`src/main.rs` lines 208-228). `n` is the number of loop iterations left,
`attempt` the 1-based attempt counter, and the third argument the `last_error`
accumulator; the operation is attempt-indexed to model the changing external
world across retries. -/
def retryFrom {E T : Type} (op : Nat → Except E T) (maxRetries : Nat) :
    Nat → Nat → Option E → RetryResult E T
  | 0, _, lastError =>
    { result := match lastError with
        | some e => .error (.fromOp e)
        | none => .error .unknown,
      invocations := 0, delays := [] }
  | n + 1, attempt, _ =>
    match op attempt with
    | .ok v => { result := .ok v, invocations := 1, delays := [] }
    | .error e =>
      if attempt < maxRetries then
        { result := (retryFrom op maxRetries n (attempt + 1) (some e)).result,
          invocations := (retryFrom op maxRetries n (attempt + 1) (some e)).invocations + 1,
          delays := RETRY_DELAY_MS * 2 ^ (attempt - 1) ::
            (retryFrom op maxRetries n (attempt + 1) (some e)).delays }
      else
        { result := (retryFrom op maxRetries n (attempt + 1) (some e)).result,
          invocations := (retryFrom op maxRetries n (attempt + 1) (some e)).invocations + 1,
          delays := (retryFrom op maxRetries n (attempt + 1) (some e)).delays }

/-- `retry_operation` generalized over the attempt bound (the code fixes it to
`MAX_RETRIES`). -/
def retry_operation_gen {E T : Type} (op : Nat → Except E T) (maxRetries : Nat) :
    RetryResult E T :=
  retryFrom op maxRetries maxRetries 1 none

/-- Function `retry_operation` from `src/main.rs` (lines 203-229). -/
def retry_operation {E T : Type} (op : Nat → Except E T) : RetryResult E T :=
  retry_operation_gen op MAX_RETRIES

/-- The character (as an ASCII byte) the standard base64 alphabet assigns to a
sextet: `A-Z`, `a-z`, `0-9`, `+`, `/`. -/
def sextetToChar (s : Nat) : Nat :=
  if s < 26 then 65 + s
  else if s < 52 then 97 + (s - 26)
  else if s < 62 then 48 + (s - 52)
  else if s = 62 then 43
  else 47

/-- Inverse of the standard base64 alphabet; `none` on bytes outside it
(including the padding byte `=` = 61). -/
def charToSextet (c : Nat) : Option Nat :=
  if 65 ≤ c ∧ c ≤ 90 then some (c - 65)
  else if 97 ≤ c ∧ c ≤ 122 then some (c - 97 + 26)
  else if 48 ≤ c ∧ c ≤ 57 then some (c - 48 + 52)
  else if c = 43 then some 62
  else if c = 47 then some 63
  else none

/-- Standard padded base64 encoding of a byte list (the encoding the Kubernetes
secret store applies to secret values; inputs are bytes, outputs ASCII byte
values of the encoded text). -/
def base64Encode : List Nat → List Nat
  | [] => []
  | [b0] =>
    [sextetToChar (b0 / 4), sextetToChar (b0 % 4 * 16), 61, 61]
  | [b0, b1] =>
    [sextetToChar (b0 / 4), sextetToChar (b0 % 4 * 16 + b1 / 16),
      sextetToChar (b1 % 16 * 4), 61]
  | b0 :: b1 :: b2 :: rest =>
    sextetToChar (b0 / 4) :: sextetToChar (b0 % 4 * 16 + b1 / 16) ::
      sextetToChar (b1 % 16 * 4 + b2 / 64) :: sextetToChar (b2 % 64) ::
      base64Encode rest

/-- The library call `general_purpose::STANDARD.decode` used by
`get_secret_data` (`src/main.rs` lines 248-249): standard alphabet, canonical
padding required, nonzero trailing bits rejected. Input and output are byte
lists; errors carry a message. -/
def base64Decode : List Nat → Except String (List Nat)
  | [] => .ok []
  | c0 :: c1 :: c2 :: c3 :: rest =>
    match charToSextet c0, charToSextet c1 with
    | some s0, some s1 =>
      if c2 = 61 then
        if c3 = 61 then
          if rest = [] then
            if s1 % 16 = 0 then .ok [s0 * 4 + s1 / 16]
            else .error "Invalid last symbol"
          else .error "Invalid byte"
        else .error "Invalid byte"
      else
        match charToSextet c2 with
        | some s2 =>
          if c3 = 61 then
            if rest = [] then
              if s2 % 4 = 0 then .ok [s0 * 4 + s1 / 16, s1 % 16 * 16 + s2 / 4]
              else .error "Invalid last symbol"
            else .error "Invalid byte"
          else
            match charToSextet c3 with
            | some s3 =>
              match base64Decode rest with
              | .ok bs =>
                .ok ((s0 * 4 + s1 / 16) :: (s1 % 16 * 16 + s2 / 4) ::
                  (s2 % 4 * 64 + s3) :: bs)
              | .error e => .error e
            | none => .error "Invalid byte"
        | none => .error "Invalid byte"
    | _, _ => .error "Invalid byte"
  | _ => .error "Invalid input length"

/-- A UTF-8 continuation byte (`0x80-0xBF`). -/
def isUtf8Cont (b : Nat) : Bool := decide (128 ≤ b ∧ b ≤ 191)

/-- UTF-8 validity of a byte list, per RFC 3629 as enforced by Rust's
`String::from_utf8`: well-formed sequence lengths, no overlong forms, no
surrogates, nothing above U+10FFFF. -/
def isValidUtf8 : List Nat → Bool
  | [] => true
  | b :: rest =>
    if b ≤ 127 then isValidUtf8 rest
    else if 194 ≤ b ∧ b ≤ 223 then
      match rest with
      | c1 :: r => isUtf8Cont c1 && isValidUtf8 r
      | [] => false
    else if b = 224 then
      match rest with
      | c1 :: c2 :: r => decide (160 ≤ c1 ∧ c1 ≤ 191) && isUtf8Cont c2 && isValidUtf8 r
      | _ => false
    else if (225 ≤ b ∧ b ≤ 236) ∨ b = 238 ∨ b = 239 then
      match rest with
      | c1 :: c2 :: r => isUtf8Cont c1 && isUtf8Cont c2 && isValidUtf8 r
      | _ => false
    else if b = 237 then
      match rest with
      | c1 :: c2 :: r => decide (128 ≤ c1 ∧ c1 ≤ 159) && isUtf8Cont c2 && isValidUtf8 r
      | _ => false
    else if b = 240 then
      match rest with
      | c1 :: c2 :: c3 :: r =>
        decide (144 ≤ c1 ∧ c1 ≤ 191) && isUtf8Cont c2 && isUtf8Cont c3 && isValidUtf8 r
      | _ => false
    else if 241 ≤ b ∧ b ≤ 243 then
      match rest with
      | c1 :: c2 :: c3 :: r => isUtf8Cont c1 && isUtf8Cont c2 && isUtf8Cont c3 && isValidUtf8 r
      | _ => false
    else if b = 244 then
      match rest with
      | c1 :: c2 :: c3 :: r =>
        decide (128 ≤ c1 ∧ c1 ≤ 143) && isUtf8Cont c2 && isUtf8Cont c3 && isValidUtf8 r
      | _ => false
    else false

/-- Rust `String::from_utf8` on a byte list: a Rust `String` is its UTF-8
bytes, so a successful conversion returns the same bytes. -/
def string_from_utf8 (bs : List Nat) : Except String (List Nat) :=
  if isValidUtf8 bs then .ok bs else .error "invalid utf-8 sequence"

/-- A Kubernetes `Secret` as `get_secret_data` consumes it: the optional
`data` map from field names to byte-list values (the `BTreeMap<String,
ByteString>` of `k8s_openapi`), as an association list. -/
structure K8sSecret where
  data : Option (List (String × List Nat))

/-- Association-list lookup, modelling `BTreeMap::get`. -/
def lookupSecretData (entries : List (String × List Nat)) (k : String) : Option (List Nat) :=
  match entries with
  | [] => none
  | (k2, v) :: rest => if k2 = k then some v else lookupSecretData rest k

/-- Function `get_secret_data` from `src/main.rs` (lines 231-252),
parameterized over the base64 decoder so that independence from it states
that no decoding is attempted. `fetched` is the result of the
`secrets.get(name)` remote call (its error propagates through `?`). -/
def get_secret_data_with (b64dec : List Nat → Except String (List Nat))
    (fetched : Except String K8sSecret) : Except String (List Nat × List Nat) :=
  match fetched with
  | .error e => .error e
  | .ok secret =>
    match secret.data.bind (fun d => lookupSecretData d "tls.crt") with
    | none => .error "tls.crt not found in secret"
    | some cert_data =>
      match secret.data.bind (fun d => lookupSecretData d "tls.key") with
      | none => .error "tls.key not found in secret"
      | some key_data =>
        match b64dec cert_data with
        | .error e => .error e
        | .ok cert_bytes =>
          match string_from_utf8 cert_bytes with
          | .error e => .error e
          | .ok cert =>
            match b64dec key_data with
            | .error e => .error e
            | .ok key_bytes =>
              match string_from_utf8 key_bytes with
              | .error e => .error e
              | .ok key => .ok (cert, key)

/-- Function `get_secret_data` with the decoder the source uses
(`general_purpose::STANDARD`). -/
def get_secret_data (fetched : Except String K8sSecret) :
    Except String (List Nat × List Nat) :=
  get_secret_data_with base64Decode fetched

/-- Struct `LinodeConfig` from `src/main.rs` (lines 38-42): one NodeBalancer
config (listener) with its port. Declared in the source but never read by any
code path; it describes the remote state the spec's resolver would list. -/
structure LinodeConfig where
  id : Nat
  port : Nat

/-- Struct `LinodeConfigsResponse` from `src/main.rs` (lines 33-36). -/
structure LinodeConfigsResponse where
  data : List LinodeConfig

/-- A request issued against the Linode NodeBalancer API. `updateConfig` is
the PUT that `update_linode_config` sends; `createConfig` is the create call
described by the spec's TerminatorUpserter (port, protocol, certificate
material) — no code in `src/main.rs` builds one, it exists to state the
spec's claim. -/
inductive LinodeCall where
  | updateConfig (nodebalancer_id https_config_id : String)
      (protocol : String) (ssl_cert ssl_key : List Nat)
  | createConfig (nodebalancer_id : String) (port : Nat)
      (protocol : String) (ssl_cert ssl_key : List Nat)

/-- The remote side's answer to a Linode API request: HTTP success, an HTTP
error status with body text, or a transport failure. -/
inductive LinodeResponse where
  | success
  | failure (body : String)
  | transportError (msg : String)

/-- The request body `update_linode_config` PUTs to
`/v4/nodebalancers/{id}/configs/{id}` (`src/main.rs` lines 266-282): protocol
`"https"` plus the decoded certificate and key. -/
def update_linode_config_call (nodebalancer_id https_config_id : String)
    (cert key : List Nat) : LinodeCall :=
  .updateConfig nodebalancer_id https_config_id "https" cert key

/-- Function `update_linode_config` from `src/main.rs` (lines 254-292), given
the remote side's behaviour: issues the PUT and maps a non-success response
to the `"Failed to update config: "` error, a transport failure to its raw
message. -/
def update_linode_config (respond : LinodeCall → LinodeResponse)
    (nodebalancer_id https_config_id : String) (cert key : List Nat) :
    Except String Unit :=
  match respond (update_linode_config_call nodebalancer_id https_config_id cert key) with
  | .success => .ok ()
  | .failure body => .error ("Failed to update config: " ++ body)
  | .transportError msg => .error msg

/-- Struct `SecretRef` from `src/main.rs` (lines 51-55). -/
structure SecretRef where
  name : String
  «namespace» : String

/-- Struct `CertManagerHook` from `src/main.rs` (lines 44-49). -/
structure CertManagerHook where
  secret_ref : SecretRef

/-- The external world one sync call runs against: the Kubernetes secret
store and the Linode API, both indexed by the retry attempt number, plus the
process configuration (`NODEBALANCER_ID`, `HTTPS_CONFIG_ID`) and the configs
currently attached to the NodeBalancer (remote state the code never reads). -/
structure SyncEnv where
  secretGet : Nat → String → String → Except String K8sSecret
  linodeRespond : Nat → LinodeCall → LinodeResponse
  nodebalancer_id : String
  https_config_id : String
  nodebalancer_configs : List LinodeConfig

/-- A network operation performed during one sync call. -/
inductive NetEvent where
  | fetchSecret («namespace» name : String)
  | linode (call : LinodeCall)

/-- Whether a network event is a Linode create call. -/
def NetEvent.isCreateCall : NetEvent → Bool
  | .linode (.createConfig ..) => true
  | _ => false

/-- Whether a network event is any Linode API call. -/
def NetEvent.isLinodeCall : NetEvent → Bool
  | .linode _ => true
  | _ => false

/-- How the handler renders the retry loop's error into a message: an
operation error prints itself, the fallback prints
`"Unknown error during retry"`. -/
def renderRetryError : RetryError String → String
  | .fromOp e => e
  | .unknown => "Unknown error during retry"

/-- Handler `update_nodebalancer_cert` from `src/main.rs` (lines 136-201):
converts the cert-manager payload, validates, fetches the secret with
retries, then updates the NodeBalancer config with retries; returns the HTTP
response together with the trace of network operations performed. -/
def update_nodebalancer_cert (env : SyncEnv) (webhook_data : CertManagerHook) :
    HttpResult × List NetEvent :=
  let request : HookRequest :=
    { «namespace» := webhook_data.secret_ref.«namespace»,
      secret_name := webhook_data.secret_ref.name }
  match validate_hook_request request with
  | .error e =>
    (⟨400, ⟨"error", some ("Invalid request: " ++ e)⟩⟩, [])
  | .ok _ =>
    let fetchRun := retry_operation fun a =>
      get_secret_data (env.secretGet a request.«namespace» request.secret_name)
    let fetchEvents := List.replicate fetchRun.invocations
      (NetEvent.fetchSecret request.«namespace» request.secret_name)
    match fetchRun.result with
    | .error e =>
      (⟨500, ⟨"error", some ("Failed to retrieve certificate data: " ++ renderRetryError e)⟩⟩,
        fetchEvents)
    | .ok (cert, key) =>
      let updateRun := retry_operation fun a =>
        update_linode_config (env.linodeRespond a) env.nodebalancer_id env.https_config_id cert key
      let updateEvents := List.replicate updateRun.invocations
        (NetEvent.linode (update_linode_config_call env.nodebalancer_id env.https_config_id cert key))
      match updateRun.result with
      | .ok _ =>
        (⟨200, ⟨"success", none⟩⟩, fetchEvents ++ updateEvents)
      | .error e =>
        (⟨500, ⟨"error", some ("Failed to update NodeBalancer: " ++ renderRetryError e)⟩⟩,
          fetchEvents ++ updateEvents)

/-! ## Helper lemmas -/

lemma charToSextet_sextetToChar : ∀ s, s < 64 → charToSextet (sextetToChar s) = some s := by
  decide

lemma sextetToChar_ne_pad : ∀ s, s < 64 → sextetToChar s ≠ 61 := by
  decide

/-- Decoding a standard padded base64 encoding recovers the original bytes. -/
lemma base64_roundtrip : ∀ (bs : List Nat), (∀ b ∈ bs, b < 256) →
    base64Decode (base64Encode bs) = .ok bs
  | [], _ => rfl
  | [b0], h => by
    have hb0 : b0 < 256 := h b0 (by simp)
    have h0 := charToSextet_sextetToChar (b0 / 4) (by omega)
    have h1 := charToSextet_sextetToChar (b0 % 4 * 16) (by omega)
    have hne0 := sextetToChar_ne_pad (b0 / 4) (by omega)
    have hrem : b0 % 4 * 16 % 16 = 0 := by omega
    have hval : b0 / 4 * 4 + b0 % 4 * 16 / 16 = b0 := by omega
    simp only [base64Encode, base64Decode, h0, h1, hrem, hval,
      if_pos rfl, if_true, reduceIte]
  | [b0, b1], h => by
    have hb0 : b0 < 256 := h b0 (by simp)
    have hb1 : b1 < 256 := h b1 (by simp)
    have h0 := charToSextet_sextetToChar (b0 / 4) (by omega)
    have h1 := charToSextet_sextetToChar (b0 % 4 * 16 + b1 / 16) (by omega)
    have h2 := charToSextet_sextetToChar (b1 % 16 * 4) (by omega)
    have hne2 := sextetToChar_ne_pad (b1 % 16 * 4) (by omega)
    have hrem : b1 % 16 * 4 % 4 = 0 := by omega
    have hv0 : b0 / 4 * 4 + (b0 % 4 * 16 + b1 / 16) / 16 = b0 := by omega
    have hv1 : (b0 % 4 * 16 + b1 / 16) % 16 * 16 + b1 % 16 * 4 / 4 = b1 := by omega
    simp only [base64Encode, base64Decode, h0, h1, h2, hrem, hv0, hv1,
      if_neg hne2, if_pos rfl, if_true, reduceIte]
  | b0 :: b1 :: b2 :: rest, h => by
    have hb0 : b0 < 256 := h b0 (by simp)
    have hb1 : b1 < 256 := h b1 (by simp)
    have hb2 : b2 < 256 := h b2 (by simp)
    have ih := base64_roundtrip rest (fun b hb => h b (by simp [hb]))
    have h0 := charToSextet_sextetToChar (b0 / 4) (by omega)
    have h1 := charToSextet_sextetToChar (b0 % 4 * 16 + b1 / 16) (by omega)
    have h2 := charToSextet_sextetToChar (b1 % 16 * 4 + b2 / 64) (by omega)
    have h3 := charToSextet_sextetToChar (b2 % 64) (by omega)
    have hne2 := sextetToChar_ne_pad (b1 % 16 * 4 + b2 / 64) (by omega)
    have hne3 := sextetToChar_ne_pad (b2 % 64) (by omega)
    have hv0 : b0 / 4 * 4 + (b0 % 4 * 16 + b1 / 16) / 16 = b0 := by omega
    have hv1 : (b0 % 4 * 16 + b1 / 16) % 16 * 16 + (b1 % 16 * 4 + b2 / 64) / 4 = b1 := by
      omega
    have hv2 : (b1 % 16 * 4 + b2 / 64) % 4 * 64 + b2 % 64 = b2 := by omega
    simp only [base64Encode, base64Decode, h0, h1, h2, h3, hv0, hv1, hv2,
      if_neg hne2, if_neg hne3, ih]

/-- If the operation fails strictly before attempt `k` and succeeds at
attempt `k`, the loop stops at attempt `k` with that success, having invoked
the operation `k + 1 - attempt` times and slept once after each failure. -/
lemma retryFrom_succeeds {E T : Type} (op : Nat → Except E T) (maxR : Nat) :
    ∀ (n attempt : Nat) (last : Option E) (k : Nat) (v : T),
      1 ≤ attempt → attempt ≤ k → k < attempt + n → k ≤ maxR →
      (∀ i, attempt ≤ i → i < k → ∃ e, op i = .error e) →
      op k = .ok v →
      retryFrom op maxR n attempt last =
        ⟨.ok v, k + 1 - attempt,
          (List.range (k - attempt)).map (fun j => RETRY_DELAY_MS * 2 ^ (attempt - 1 + j))⟩ := by
  intro n
  induction n with
  | zero => intro attempt last k v h1 h2 h3 h4 hfail hk; omega
  | succ m ih =>
    intro attempt last k v h1 h2 h3 h4 hfail hk
    rcases Nat.eq_or_lt_of_le h2 with heq | hlt
    · subst heq
      simp only [retryFrom, hk]
      have : attempt - attempt = 0 := by omega
      simp [this]
    · obtain ⟨e, he⟩ := hfail attempt (le_refl _) hlt
      have hlt_max : attempt < maxR := by omega
      have hrec := ih (attempt + 1) (some e) k v (by omega) (by omega) (by omega) h4
        (fun i hi1 hi2 => hfail i (by omega) hi2) hk
      simp only [retryFrom, he, if_pos hlt_max, hrec]
      have hcnt : k - attempt = (k - (attempt + 1)) + 1 := by omega
      congr 1
      · omega
      · rw [hcnt, List.range_succ_eq_map, List.map_cons, List.map_map]
        simp only [List.cons.injEq]
        refine ⟨by simp, ?_⟩
        apply List.map_congr_left
        intro j _
        simp only [Function.comp_apply, Nat.succ_eq_add_one]
        have hexp : attempt + 1 - 1 + j = attempt - 1 + (j + 1) := by omega
        rw [hexp]

/-- If the operation fails on every remaining attempt, the loop runs them
all, sleeps after each attempt but the last, and reports the error of the
final attempt (attempt `maxR`). -/
lemma retryFrom_all_fail {E T : Type} (op : Nat → Except E T) (maxR : Nat) (errs : Nat → E) :
    ∀ (n attempt : Nat) (last : Option E),
      1 ≤ attempt → 1 ≤ n → attempt + n = maxR + 1 →
      (∀ i, attempt ≤ i → i ≤ maxR → op i = .error (errs i)) →
      retryFrom op maxR n attempt last =
        ⟨.error (.fromOp (errs maxR)), n,
          (List.range (n - 1)).map (fun j => RETRY_DELAY_MS * 2 ^ (attempt - 1 + j))⟩ := by
  intro n
  induction n with
  | zero => intro attempt last h1 h2 h3 hfail; omega
  | succ m ih =>
    intro attempt last h1 _ h3 hfail
    rcases Nat.eq_zero_or_pos m with hm | hm
    · subst hm
      have hat : attempt = maxR := by omega
      have he := hfail attempt (le_refl _) (by omega)
      have hnlt : ¬ attempt < maxR := by omega
      subst hat
      simp [retryFrom, he, hnlt]
    · have hlt_max : attempt < maxR := by omega
      have he := hfail attempt (le_refl _) (by omega)
      have hrec := ih (attempt + 1) (some (errs attempt)) (by omega) hm (by omega)
        (fun i hi1 hi2 => hfail i (by omega) hi2)
      simp only [retryFrom, he, if_pos hlt_max, hrec]
      have hcnt : m + 1 - 1 = (m - 1) + 1 := by omega
      congr 1
      rw [hcnt, List.range_succ_eq_map, List.map_cons, List.map_map]
      simp only [List.cons.injEq]
      refine ⟨by simp, ?_⟩
      apply List.map_congr_left
      intro j _
      simp only [Function.comp_apply, Nat.succ_eq_add_one]
      have hexp : attempt + 1 - 1 + j = attempt - 1 + (j + 1) := by omega
      rw [hexp]

/-- Every delay slept by the loop follows the exponential-backoff formula:
the delay at position `j` (0-based; it follows attempt `attempt + j`) is
`RETRY_DELAY_MS * 2 ^ (attempt - 1 + j)`. -/
lemma retryFrom_delay_spec {E T : Type} (op : Nat → Except E T) (maxR : Nat) :
    ∀ (n attempt : Nat) (last : Option E), 1 ≤ attempt → attempt + n ≤ maxR + 1 →
      ∀ (j d : Nat), (retryFrom op maxR n attempt last).delays.get? j = some d →
        d = RETRY_DELAY_MS * 2 ^ (attempt - 1 + j) := by
  intro n
  induction n with
  | zero =>
    intro attempt last h1 h2 j d hget
    simp [retryFrom] at hget
  | succ m ih =>
    intro attempt last h1 h2 j d hget
    rcases hop : op attempt with e | v
    · simp only [retryFrom, hop] at hget
      by_cases hlt : attempt < maxR
      · rw [if_pos hlt] at hget
        rcases j with _ | j
        · simp only [List.get?_cons_zero, Option.some.injEq] at hget
          rw [← hget, Nat.add_zero]
        · simp only [List.get?_cons_succ] at hget
          have := ih (attempt + 1) (some e) (by omega) (by omega) j d hget
          have hexp : attempt + 1 - 1 + j = attempt - 1 + (j + 1) := by omega
          rw [this, hexp]
      · rw [if_neg hlt] at hget
        have hm : m = 0 := by omega
        subst hm
        simp [retryFrom] at hget
    · simp [retryFrom, hop] at hget

/-- If the loop ends in failure, the reported error is the error the
operation produced on the final attempt (never the fallback). -/
lemma retryFrom_error_origin {E T : Type} (op : Nat → Except E T) (maxR : Nat) :
    ∀ (n attempt : Nat) (last : Option E) (x : RetryError E),
      1 ≤ n → (retryFrom op maxR n attempt last).result = .error x →
      ∃ e, op (attempt + n - 1) = .error e ∧ x = .fromOp e := by
  intro n
  induction n with
  | zero => intro attempt last x h1 _; omega
  | succ m ih =>
    intro attempt last x _ hres
    rcases hop : op attempt with e | v
    · rcases Nat.eq_zero_or_pos m with hm | hm
      · subst hm
        simp only [retryFrom, hop] at hres
        by_cases hlt : attempt < maxR
        · rw [if_pos hlt] at hres
          simp [retryFrom] at hres
          exact ⟨e, by simpa using hop, hres.symm⟩
        · rw [if_neg hlt] at hres
          simp [retryFrom] at hres
          exact ⟨e, by simpa using hop, hres.symm⟩
      · simp only [retryFrom, hop] at hres
        by_cases hlt : attempt < maxR
        · rw [if_pos hlt] at hres
          obtain ⟨e2, he2, hx⟩ := ih (attempt + 1) (some e) x hm hres
          exact ⟨e2, by convert he2 using 2; omega, hx⟩
        · rw [if_neg hlt] at hres
          obtain ⟨e2, he2, hx⟩ := ih (attempt + 1) (some e) x hm hres
          exact ⟨e2, by convert he2 using 2; omega, hx⟩
    · simp [retryFrom, hop] at hres

/-- `retry_operation` at a first-attempt success: one invocation, no delays. -/
lemma retry_operation_first_success {E T : Type} (op : Nat → Except E T) (v : T)
    (h : op 1 = .ok v) :
    retry_operation op = ⟨.ok v, 1, []⟩ := by
  have := retryFrom_succeeds op MAX_RETRIES MAX_RETRIES 1 none 1 v (le_refl _) (le_refl _)
    (by decide) (by decide) (fun i hi1 hi2 => absurd (lt_of_le_of_lt hi1 hi2) (lt_irrefl _)) h
  simpa [retry_operation, retry_operation_gen] using this

/-- `retry_operation` when the operation fails on attempts 1, 2 and 3:
three invocations, delays 500ms and 1000ms, and the third attempt's error. -/
lemma retry_operation_all_fail {E T : Type} (op : Nat → Except E T) (errs : Nat → E)
    (h : ∀ i, 1 ≤ i → i ≤ MAX_RETRIES → op i = .error (errs i)) :
    retry_operation op =
      ⟨.error (.fromOp (errs MAX_RETRIES)), MAX_RETRIES, [RETRY_DELAY_MS, RETRY_DELAY_MS * 2]⟩ := by
  have := retryFrom_all_fail op MAX_RETRIES errs MAX_RETRIES 1 none (le_refl _)
    (by decide) (by decide) (fun i hi1 hi2 => h i hi1 hi2)
  rw [retry_operation, retry_operation_gen, this]
  congr 1

/-- Characterization of the validator: it accepts exactly the requests with
nonempty fields whose namespace characters are alphanumeric or `-` and whose
secret-name characters are alphanumeric, `-` or `.`. -/
lemma validate_hook_request_ok_iff (req : HookRequest) :
    validate_hook_request req = .ok () ↔
      req.«namespace» ≠ "" ∧ req.secret_name ≠ "" ∧
      (∀ c ∈ req.«namespace».toList, is_alphanumeric c = true ∨ c = '-') ∧
      (∀ c ∈ req.secret_name.toList, is_alphanumeric c = true ∨ c = '-' ∨ c = '.') := by
  unfold validate_hook_request
  split_ifs with h1 h2 h3 h4
  · constructor
    · intro h; exact h.elim
    · rintro ⟨hne, -⟩; exact absurd h1 hne
  · constructor
    · intro h; exact h.elim
    · rintro ⟨-, hne, -⟩; exact absurd h2 hne
  · rw [Bool.not_eq_true', List.all_eq_false] at h3
    obtain ⟨c, hc, hfalse⟩ := h3
    simp at hfalse
    constructor
    · intro h; exact h.elim
    · rintro ⟨-, -, hns, -⟩
      rcases hns c hc with hal | hd
      · exact absurd hal (by simp [hfalse.1])
      · exact absurd hd hfalse.2
  · rw [Bool.not_eq_true', List.all_eq_false] at h4
    obtain ⟨c, hc, hfalse⟩ := h4
    simp at hfalse
    constructor
    · intro h; exact h.elim
    · rintro ⟨-, -, -, hsn⟩
      rcases hsn c hc with hal | hd | hdot
      · exact absurd hal (by simp [hfalse.1.1])
      · exact absurd hd hfalse.1.2
      · exact absurd hdot hfalse.2
  · rw [Bool.not_eq_true', Bool.not_eq_false] at h3 h4
    rw [List.all_eq_true] at h3 h4
    refine iff_of_true rfl ⟨h1, h2, ?_, ?_⟩
    · intro c hc
      have := h3 c hc
      simp only [Bool.or_eq_true, beq_iff_eq] at this
      exact this
    · intro c hc
      have := h4 c hc
      simp only [Bool.or_eq_true, beq_iff_eq] at this
      tauto

/-! ## Claims -/

/-- Claim C5: for every operation that fails on all attempts, the retry
executor with maxAttempts = 3 invokes the operation exactly 3 times and
returns a failure carrying the error observed on the last (third) attempt,
discarding earlier errors. -/
theorem C5_exhaustion_returns_last_error {E T : Type} (op : Nat → Except E T) (errs : Nat → E)
    (h : ∀ i, 1 ≤ i → i ≤ MAX_RETRIES → op i = .error (errs i)) :
    (retry_operation op).result = .error (.fromOp (errs MAX_RETRIES)) ∧
    (retry_operation op).invocations = MAX_RETRIES := by
  rw [retry_operation_all_fail op errs h]
  exact ⟨rfl, rfl⟩

theorem C5_witness :
    (∀ i, 1 ≤ i → i ≤ MAX_RETRIES →
      (fun a => (Except.error (toString a) : Except String Unit)) i = .error (toString i)) ∧
    (retry_operation fun a => (Except.error (toString a) : Except String Unit)).result
        = .error (.fromOp (toString MAX_RETRIES)) ∧
    (retry_operation fun a => (Except.error (toString a) : Except String Unit)).invocations
        = MAX_RETRIES :=
  ⟨fun _ _ _ => rfl,
    C5_exhaustion_returns_last_error (fun a => .error (toString a)) (fun a => toString a)
      (fun _ _ _ => rfl)⟩

/-- Claim C6: the retry executor returns the first success immediately: for
every k with 1 ≤ k ≤ maxAttempts, if the operation fails on the first k-1
invocations and succeeds on the k-th, the result is that success value and
the operation is invoked exactly k times. -/
theorem C6_first_success_immediate {E T : Type} (op : Nat → Except E T) (maxR k : Nat) (v : T)
    (h1 : 1 ≤ k) (h2 : k ≤ maxR)
    (hfail : ∀ i, 1 ≤ i → i < k → ∃ e, op i = .error e)
    (hk : op k = .ok v) :
    (retry_operation_gen op maxR).result = .ok v ∧
    (retry_operation_gen op maxR).invocations = k := by
  have hmain := retryFrom_succeeds op maxR maxR 1 none k v (le_refl _) h1 (by omega) h2
    (fun i hi1 hi2 => hfail i hi1 hi2) hk
  rw [retry_operation_gen, hmain]
  exact ⟨rfl, by simp⟩

theorem C6_witness :
    ((fun a => if a < 3 then (Except.error "transient" : Except String Nat) else .ok 7) 3
        = .ok 7) ∧
    (retry_operation_gen
        (fun a => if a < 3 then (Except.error "transient" : Except String Nat) else .ok 7)
        3).result = .ok 7 ∧
    (retry_operation_gen
        (fun a => if a < 3 then (Except.error "transient" : Except String Nat) else .ok 7)
        3).invocations = 3 :=
  ⟨rfl,
    C6_first_success_immediate _ 3 3 7 (by decide) (by decide)
      (fun i _ h2 => ⟨"transient", by simp [show i < 3 from h2]⟩) rfl⟩

/-- Claim C7: every backoff delay follows the formula baseDelay * 2^(k-1)
(the delay at 0-based position j, slept after attempt j+1, is
RETRY_DELAY_MS * 2^j), and with the defaults an always-failing run sleeps
exactly 500ms after attempt 1 and 1000ms after attempt 2 — two delays in
total, none before attempt 1. -/
theorem C7_backoff_schedule :
    (∀ {E T : Type} (op : Nat → Except E T) (maxR j d : Nat),
        (retry_operation_gen op maxR).delays.get? j = some d →
        d = RETRY_DELAY_MS * 2 ^ j) ∧
    (∀ e : String,
        (retry_operation fun _ => (Except.error e : Except String Unit)).delays
          = [RETRY_DELAY_MS, RETRY_DELAY_MS * 2]) := by
  constructor
  · intro E T op maxR j d hget
    have hmain := retryFrom_delay_spec op maxR maxR 1 none (le_refl _) (by omega) j d hget
    simpa using hmain
  · intro e
    rw [retry_operation_all_fail (fun _ => .error e) (fun _ => e) (fun _ _ _ => rfl)]

theorem C7_witness :
    ((retry_operation_gen (fun _ => (Except.error "boom" : Except String Unit)) 3).delays.get? 1
        = some 1000) ∧
    (1000 : Nat) = RETRY_DELAY_MS * 2 ^ 1 ∧
    (retry_operation fun _ => (Except.error "boom" : Except String Unit)).delays
        = [RETRY_DELAY_MS, RETRY_DELAY_MS * 2] :=
  ⟨rfl,
    C7_backoff_schedule.1 (fun _ => (Except.error "boom" : Except String Unit)) 3 1 1000 (by rfl),
    C7_backoff_schedule.2 "boom"⟩

/-- Claim C10: whenever the retry loop completes without an early success,
last_error is Some, so the "Unknown error during retry" fallback is
unreachable: any returned error was produced by the operation itself (on the
final attempt), never the fallback. -/
theorem C10_fallback_unreachable {E T : Type} (op : Nat → Except E T) (x : RetryError E)
    (hx : (retry_operation op).result = .error x) :
    (∃ e, op MAX_RETRIES = .error e ∧ x = .fromOp e) ∧ x ≠ .unknown := by
  have hmain := retryFrom_error_origin op MAX_RETRIES MAX_RETRIES 1 none x (by decide) hx
  obtain ⟨e, he, hxe⟩ := hmain
  have h3 : 1 + MAX_RETRIES - 1 = MAX_RETRIES := by decide
  rw [h3] at he
  exact ⟨⟨e, he, hxe⟩, by rw [hxe]; exact fun h => RetryError.noConfusion h⟩

theorem C10_witness :
    ((retry_operation fun _ => (Except.error "boom" : Except String Unit)).result
        = .error (.fromOp "boom")) ∧
    ((∃ e, (fun _ => (Except.error "boom" : Except String Unit)) MAX_RETRIES = .error e ∧
        (RetryError.fromOp "boom" : RetryError String) = .fromOp e) ∧
      (RetryError.fromOp "boom" : RetryError String) ≠ .unknown) :=
  ⟨rfl,
    C10_fallback_unreachable (fun _ => (Except.error "boom" : Except String Unit))
      (RetryError.fromOp "boom") (by rfl)⟩

/-- Claim C2 (counterexample): the claim that every character outside
[A-Za-z0-9-] in the namespace is rejected is false: 'é' (U+00E9) is outside
that set, yet the request with namespace "café" passes validation, because
the code tests Rust's Unicode char::is_alphanumeric, not the ASCII set. -/
theorem C2_counterexample :
    ('é' ∈ "café".toList ∧ specNamespaceChar 'é' = false) ∧
    validate_hook_request ⟨"café", "tls-cert"⟩ = .ok () :=
  ⟨by decide, by rfl⟩

/-- Claim C2 (amended): validate fails for every request whose namespace
contains a character that is neither Unicode-alphanumeric nor '-', and for
every request whose secretName contains a character that is neither
Unicode-alphanumeric, '-' nor '.'. (Unicode letters and digits such as 'é'
are accepted, so non-ASCII characters are not uniformly rejected; the
hypotheses restrict both fields to the Latin-1 range on which the
is_alphanumeric table is exact.) -/
theorem C2_amended_rejects_nonalphanumeric (req : HookRequest)
    (hns : ∀ c ∈ req.«namespace».toList, c.toNat ≤ 255)
    (hsn : ∀ c ∈ req.secret_name.toList, c.toNat ≤ 255)
    (h : (∃ c ∈ req.«namespace».toList, is_alphanumeric c = false ∧ c ≠ '-') ∨
         (∃ c ∈ req.secret_name.toList, is_alphanumeric c = false ∧ c ≠ '-' ∧ c ≠ '.')) :
    ∃ e, validate_hook_request req = .error e := by
  cases hv : validate_hook_request req with
  | error e => exact ⟨e, rfl⟩
  | ok u =>
    exfalso
    cases u
    rw [validate_hook_request_ok_iff] at hv
    obtain ⟨-, -, hns2, hsn2⟩ := hv
    rcases h with ⟨c, hc, hal, hd⟩ | ⟨c, hc, hal, hd, hdot⟩
    · rcases hns2 c hc with h1 | h1
      · rw [hal] at h1; exact Bool.noConfusion h1
      · exact hd h1
    · rcases hsn2 c hc with h1 | h1 | h1
      · rw [hal] at h1; exact Bool.noConfusion h1
      · exact hd h1
      · exact hdot h1

theorem C2_witness :
    (∀ c ∈ ("bad_ns" : String).toList, c.toNat ≤ 255) ∧
    (∀ c ∈ ("tls-cert" : String).toList, c.toNat ≤ 255) ∧
    (∃ c ∈ ("bad_ns" : String).toList, is_alphanumeric c = false ∧ c ≠ '-') ∧
    ∃ e, validate_hook_request ⟨"bad_ns", "tls-cert"⟩ = .error e :=
  ⟨by decide, by decide, by decide,
    C2_amended_rejects_nonalphanumeric ⟨"bad_ns", "tls-cert"⟩ (by decide) (by decide)
      (Or.inl (by decide))⟩

/-- Claim C4: for every request with an empty namespace or an empty
secretName, validation fails, the handler returns a 400 validation-error
response immediately, and the network-event trace is empty (no secret fetch
and no load-balancer call), for every environment. -/
theorem C4_empty_field_no_network (env : SyncEnv) (hook : CertManagerHook)
    (h : hook.secret_ref.«namespace» = "" ∨ hook.secret_ref.name = "") :
    ∃ msg, update_nodebalancer_cert env hook =
      (⟨400, ⟨"error", some msg⟩⟩, ([] : List NetEvent)) := by
  obtain ⟨m, hm⟩ : ∃ m, validate_hook_request
      ⟨hook.secret_ref.«namespace», hook.secret_ref.name⟩ = .error m := by
    rcases h with h | h
    · exact ⟨_, by unfold validate_hook_request; rw [if_pos h]⟩
    · by_cases hn : hook.secret_ref.«namespace» = ""
      · exact ⟨_, by unfold validate_hook_request; rw [if_pos hn]⟩
      · exact ⟨_, by unfold validate_hook_request; rw [if_neg hn, if_pos h]⟩
  refine ⟨"Invalid request: " ++ m, ?_⟩
  simp only [update_nodebalancer_cert]
  rw [hm]

theorem C4_witness :
    (("" : String) = "" ∨ ("tls-cert" : String) = "") ∧
    ∃ msg, update_nodebalancer_cert
        ⟨fun _ _ _ => .error "unused", fun _ _ => .success, "12345", "67890", []⟩
        ⟨⟨"tls-cert", ""⟩⟩ =
      (⟨400, ⟨"error", some msg⟩⟩, ([] : List NetEvent)) :=
  ⟨Or.inl rfl,
    C4_empty_field_no_network
      ⟨fun _ _ _ => .error "unused", fun _ _ => .success, "12345", "67890", []⟩
      ⟨⟨"tls-cert", ""⟩⟩ (Or.inl rfl)⟩

/-- Claim C8: for every secret whose data contains both the "tls.crt" and
"tls.key" entries as base64 encodings of (under-256) byte lists that are
valid UTF-8 text, the fetch succeeds and returns exactly the decoded
original PEM byte strings (base64 decode round-trips the stored encoding). -/
theorem C8_fetch_roundtrip (d : List (String × List Nat)) (certPem keyPem : List Nat)
    (hcb : ∀ b ∈ certPem, b < 256) (hkb : ∀ b ∈ keyPem, b < 256)
    (hcu : isValidUtf8 certPem = true) (hku : isValidUtf8 keyPem = true)
    (hcrt : lookupSecretData d "tls.crt" = some (base64Encode certPem))
    (hkey : lookupSecretData d "tls.key" = some (base64Encode keyPem)) :
    get_secret_data (.ok ⟨some d⟩) = .ok (certPem, keyPem) := by
  simp only [get_secret_data, get_secret_data_with, Option.some_bind, hcrt, hkey,
    base64_roundtrip certPem hcb, base64_roundtrip keyPem hkb, string_from_utf8, hcu, hku,
    if_true]

theorem C8_witness :
    (∀ b ∈ [67, 69, 82, 84], b < 256) ∧ (∀ b ∈ [75, 69, 89], b < 256) ∧
    isValidUtf8 [67, 69, 82, 84] = true ∧ isValidUtf8 [75, 69, 89] = true ∧
    lookupSecretData [("tls.crt", base64Encode [67, 69, 82, 84]),
        ("tls.key", base64Encode [75, 69, 89])] "tls.crt"
      = some (base64Encode [67, 69, 82, 84]) ∧
    lookupSecretData [("tls.crt", base64Encode [67, 69, 82, 84]),
        ("tls.key", base64Encode [75, 69, 89])] "tls.key"
      = some (base64Encode [75, 69, 89]) ∧
    get_secret_data (.ok ⟨some [("tls.crt", base64Encode [67, 69, 82, 84]),
        ("tls.key", base64Encode [75, 69, 89])]⟩)
      = .ok ([67, 69, 82, 84], [75, 69, 89]) :=
  ⟨by decide, by decide, by decide, by decide, by rfl, by rfl,
    C8_fetch_roundtrip _ _ _ (by decide) (by decide) (by decide) (by decide) (by rfl) (by rfl)⟩

/-- Claim C9: for every secret whose data lacks the "tls.key" entry (while
holding a "tls.crt" entry), the fetch fails with the missing-field error, and
it does so for every base64 decoder — no decoding of any field is
attempted. -/
theorem C9_missing_key_no_decode (b64dec : List Nat → Except String (List Nat))
    (d : List (String × List Nat)) (certVal : List Nat)
    (hcrt : lookupSecretData d "tls.crt" = some certVal)
    (hkey : lookupSecretData d "tls.key" = none) :
    get_secret_data_with b64dec (.ok ⟨some d⟩) = .error "tls.key not found in secret" := by
  simp only [get_secret_data_with, Option.some_bind, hcrt, hkey]

theorem C9_witness :
    lookupSecretData [("tls.crt", [81, 81, 61, 61])] "tls.crt" = some [81, 81, 61, 61] ∧
    lookupSecretData [("tls.crt", [81, 81, 61, 61])] "tls.key" = none ∧
    get_secret_data_with (fun _ => .error "decoder must not run")
        (.ok ⟨some [("tls.crt", [81, 81, 61, 61])]⟩)
      = .error "tls.key not found in secret" :=
  ⟨by rfl, by rfl,
    C9_missing_key_no_decode (fun _ => .error "decoder must not run") _ _ (by rfl) (by rfl)⟩

/-- Claim C3: for every request that passes validation, if the secret fetch
fails on all 3 retry attempts, the handler returns the 500 fetch-error
response carrying the last attempt's error, the trace holds exactly the 3
secret-fetch events, and no load-balancer call is ever issued. -/
theorem C3_fetch_exhaustion_never_calls_lb (env : SyncEnv) (hook : CertManagerHook)
    (errs : Nat → String)
    (hvalid : validate_hook_request ⟨hook.secret_ref.«namespace», hook.secret_ref.name⟩
      = .ok ())
    (hfail : ∀ a, 1 ≤ a → a ≤ MAX_RETRIES →
      get_secret_data (env.secretGet a hook.secret_ref.«namespace» hook.secret_ref.name)
        = .error (errs a)) :
    update_nodebalancer_cert env hook =
      (⟨500, ⟨"error", some ("Failed to retrieve certificate data: " ++ errs MAX_RETRIES)⟩⟩,
        List.replicate MAX_RETRIES
          (NetEvent.fetchSecret hook.secret_ref.«namespace» hook.secret_ref.name)) ∧
    ∀ e ∈ (update_nodebalancer_cert env hook).2, e.isLinodeCall = false := by
  have hr := retry_operation_all_fail
    (fun a => get_secret_data (env.secretGet a hook.secret_ref.«namespace» hook.secret_ref.name))
    errs hfail
  have heq : update_nodebalancer_cert env hook =
      (⟨500, ⟨"error", some ("Failed to retrieve certificate data: " ++ errs MAX_RETRIES)⟩⟩,
        List.replicate MAX_RETRIES
          (NetEvent.fetchSecret hook.secret_ref.«namespace» hook.secret_ref.name)) := by
    simp only [update_nodebalancer_cert, hvalid, hr, renderRetryError]
  refine ⟨heq, ?_⟩
  rw [heq]
  intro e he
  obtain rfl := (List.mem_replicate.mp he).2
  rfl

theorem C3_witness :
    (validate_hook_request ⟨"prod", "tls-cert"⟩ = .ok ()) ∧
    (∀ a, 1 ≤ a → a ≤ MAX_RETRIES →
      get_secret_data (Except.error "secret not found") = Except.error "secret not found") ∧
    (update_nodebalancer_cert
        ⟨fun _ _ _ => .error "secret not found", fun _ _ => .success, "12345", "67890", []⟩
        ⟨⟨"tls-cert", "prod"⟩⟩ =
      (⟨500, ⟨"error", some ("Failed to retrieve certificate data: " ++ "secret not found")⟩⟩,
        List.replicate MAX_RETRIES (NetEvent.fetchSecret "prod" "tls-cert")) ∧
      ∀ e ∈ (update_nodebalancer_cert
          ⟨fun _ _ _ => .error "secret not found", fun _ _ => .success, "12345", "67890", []⟩
          ⟨⟨"tls-cert", "prod"⟩⟩).2, e.isLinodeCall = false) :=
  ⟨by rfl, fun _ _ _ => rfl,
    C3_fetch_exhaustion_never_calls_lb
      ⟨fun _ _ _ => .error "secret not found", fun _ _ => .success, "12345", "67890", []⟩
      ⟨⟨"tls-cert", "prod"⟩⟩ (fun _ => "secret not found") (by rfl) (fun _ _ _ => rfl)⟩

/-- Claim C1 (counterexample): a concrete sync call in which the target
NodeBalancer has no port-443 config (its only config listens on port 80) —
the run succeeds, but no create call is issued: find-or-create does not
exist; the handler always PUTs an update to the pre-configured config id. -/
theorem C1_counterexample :
    ((List.all [⟨1, 80⟩]
        (fun c : LinodeConfig => c.port != 443)) = true) ∧
    (update_nodebalancer_cert
        ⟨fun _ _ _ => .ok ⟨some [("tls.crt", [81, 81, 61, 61]), ("tls.key", [81, 103, 61, 61])]⟩,
          fun _ _ => .success, "12345", "67890", [⟨1, 80⟩]⟩
        ⟨⟨"tls-cert", "prod"⟩⟩).1.body.status = "success" ∧
    ((update_nodebalancer_cert
        ⟨fun _ _ _ => .ok ⟨some [("tls.crt", [81, 81, 61, 61]), ("tls.key", [81, 103, 61, 61])]⟩,
          fun _ _ => .success, "12345", "67890", [⟨1, 80⟩]⟩
        ⟨⟨"tls-cert", "prod"⟩⟩).2.all fun e => !e.isCreateCall) = true := by
  refine ⟨by rfl, by rfl, by rfl⟩

/-- Claim C1 (amended): the code never inspects the NodeBalancer's existing
configs — whether or not a port-443 terminator exists, the upsert step issues
exactly one update (PUT) call against the pre-configured HTTPS config id,
carrying protocol "https" and the decoded certificate material, and the
handler returns success when the fetch and the update are accepted on their
first attempts. -/
theorem C1_amended_always_updates (env : SyncEnv) (hook : CertManagerHook)
    (cert key : List Nat)
    (hvalid : validate_hook_request ⟨hook.secret_ref.«namespace», hook.secret_ref.name⟩
      = .ok ())
    (hfetch : get_secret_data (env.secretGet 1 hook.secret_ref.«namespace» hook.secret_ref.name)
      = .ok (cert, key))
    (hupdate : env.linodeRespond 1
        (update_linode_config_call env.nodebalancer_id env.https_config_id cert key)
      = .success) :
    update_nodebalancer_cert env hook =
      (⟨200, ⟨"success", none⟩⟩,
        [NetEvent.fetchSecret hook.secret_ref.«namespace» hook.secret_ref.name,
          NetEvent.linode
            (.updateConfig env.nodebalancer_id env.https_config_id "https" cert key)]) := by
  have hf := retry_operation_first_success
    (fun a => get_secret_data (env.secretGet a hook.secret_ref.«namespace» hook.secret_ref.name))
    (cert, key) hfetch
  have hu := retry_operation_first_success
    (fun a => update_linode_config (env.linodeRespond a) env.nodebalancer_id env.https_config_id
      cert key)
    () (by simp [update_linode_config, hupdate])
  simp only [update_nodebalancer_cert, hvalid, hf, hu, update_linode_config_call,
    List.replicate, List.cons_append, List.nil_append]

theorem C1_witness :
    (validate_hook_request ⟨"prod", "tls-cert"⟩ = .ok ()) ∧
    (get_secret_data
        (.ok ⟨some [("tls.crt", [81, 81, 61, 61]), ("tls.key", [81, 103, 61, 61])]⟩)
      = .ok ([65], [66])) ∧
    update_nodebalancer_cert
        ⟨fun _ _ _ => .ok ⟨some [("tls.crt", [81, 81, 61, 61]), ("tls.key", [81, 103, 61, 61])]⟩,
          fun _ _ => .success, "12345", "67890", []⟩
        ⟨⟨"tls-cert", "prod"⟩⟩ =
      (⟨200, ⟨"success", none⟩⟩,
        [NetEvent.fetchSecret "prod" "tls-cert",
          NetEvent.linode (.updateConfig "12345" "67890" "https" [65] [66])]) :=
  ⟨by rfl, by rfl,
    C1_amended_always_updates
      ⟨fun _ _ _ => .ok ⟨some [("tls.crt", [81, 81, 61, 61]), ("tls.key", [81, 103, 61, 61])]⟩,
        fun _ _ => .success, "12345", "67890", []⟩
      ⟨⟨"tls-cert", "prod"⟩⟩ [65] [66] (by rfl) (by rfl) (by rfl)⟩

end CertWebhook
